import Mathlib

/-!
Verification of the ok-proxy library (src/main.go) against its
natural-language specification.

The Go code is shallowly embedded: Go strings are lists of characters,
the request/response machinery is reduced to the fields the program
touches, and each handler is a pure function from its inputs to an
outcome record collecting the final request, the final resolver state,
the sequence of error-collaborator invocations and whether the
reverse-proxy primitive was handed the request.

The two platform collaborators the code calls — the URL parser
(net/url.Parse) and the JSON decoder (encoding/json.Unmarshal) — are
external libraries, not code of this repository; the embedded functions
are parametric in them, and concrete models faithful on the inputs
actually evaluated here are supplied for witnesses.
-/

/-- Go strings are modelled as lists of characters. -/
abbrev GoStr := List Char

/-- Shorthand turning a Lean string literal into the modelled Go string. -/
def gs (s : String) : GoStr := s.data

/-- Model of net/url.URL restricted to the fields the program touches
(r.URL.Scheme, r.URL.Host, r.URL.Path). -/
structure NetURL where
  Scheme : GoStr
  Host : GoStr
  Path : GoStr
deriving DecidableEq

/-- Model of the request body stream r.Body. Reading is destructive: a
readable stream is drained by a successful read; a failing stream models a
transport error surfaced by ioutil.ReadAll. -/
inductive BodyState where
  | stream (content : GoStr)
  | consumed
  | failing (msg : GoStr)
deriving DecidableEq

/-- Model of http.Request restricted to the fields the program touches. The
header is an association list keyed by canonical header names (the code only
uses the literal canonical keys Host and X-Forwarded-Host). -/
structure Request where
  URL : NetURL
  Header : List (GoStr × GoStr)
  Host : GoStr
  Body : BodyState
deriving DecidableEq

/-- http.Header.Get: first value stored under the key, empty when absent. -/
def headerGet (h : List (GoStr × GoStr)) (k : GoStr) : GoStr :=
  match h.find? (fun p => p.1 == k) with
  | some p => p.2
  | none => []

/-- http.Header.Set: replace all values stored under the key by the one value. -/
def headerSet (h : List (GoStr × GoStr)) (k v : GoStr) : List (GoStr × GoStr) :=
  (k, v) :: h.filter (fun p => p.1 != k)

/-- The reverseProxy struct: stores the proxy URL (json tag proxyURL). -/
structure reverseProxy where
  URL : GoStr
deriving DecidableEq

/-- SetProxyURL replaces the stored URL unconditionally. -/
def reverseProxy.SetProxyURL (rp : reverseProxy) (url : GoStr) : reverseProxy :=
  { rp with URL := url }

/-- GetProxyURL returns the stored URL. -/
def reverseProxy.GetProxyURL (rp : reverseProxy) : GoStr :=
  rp.URL

/-- The OKProxy struct embedding a reverseProxy. -/
structure OKProxy where
  proxy : reverseProxy
deriving DecidableEq

/-- New allocates an OKProxy whose reverseProxy holds the given URL string. -/
def New (URL : GoStr) : OKProxy :=
  ⟨⟨URL⟩⟩

/-- Result of parsing a target URL: the fields of net/url.URL the forwarder
reads (url.Scheme and url.Host). -/
structure TargetURL where
  Scheme : GoStr
  Host : GoStr
deriving DecidableEq

/-- Type of the platform URL parser net/url.Parse, an external collaborator:
a URL value on success, an error value on failure. -/
abbrev ParseURL := GoStr → Except GoStr TargetURL

/-- Type of the platform JSON decoder encoding/json.Unmarshal specialised to
the reverseProxy struct, whose single tagged field is proxyURL: an error on a
syntax or shape failure (in which case encoding/json has written no field),
otherwise the decoded proxyURL field when present, none when absent. -/
abbrev UnmarshalFn := GoStr → Except GoStr (Option GoStr)

/-- Propositional equality of Except values is decidable componentwise, so
that witnesses can evaluate the modelled collaborators by decide. -/
instance {ε α : Type} [DecidableEq ε] [DecidableEq α] : DecidableEq (Except ε α)
  | .error a, .error b =>
    if h : a = b then .isTrue (by rw [h])
    else .isFalse (fun hh => h (Except.error.inj hh))
  | .error _, .ok _ => .isFalse (fun hh => Except.noConfusion hh)
  | .ok _, .error _ => .isFalse (fun hh => Except.noConfusion hh)
  | .ok a, .ok b =>
    if h : a = b then .isTrue (by rw [h])
    else .isFalse (fun hh => h (Except.ok.inj hh))

/-- strings.TrimPrefix: remove one leading occurrence of the given string if
present, otherwise return the string unchanged. -/
def dropPrefixOnce (s p : GoStr) : GoStr :=
  if p.isPrefixOf s then s.drop p.length else s

/-- Observable outcome of serveReverseProxy: the final request, the
error-collaborator invocations in order, and whether the reverse-proxy
primitive (httputil reverse proxy ServeHTTP) was handed the request. -/
structure ForwardOutcome where
  req : Request
  errors : List GoStr
  served : Bool
deriving DecidableEq

/-- serveReverseProxy: parse the stored target; on failure report the parse
error to the collaborator and stop; on success rewrite the request URL host
and scheme, set X-Forwarded-Host to the inbound Host header value, overwrite
the request host, and hand the request to the reverse-proxy primitive. -/
def serveReverseProxy (parse : ParseURL) (rp : reverseProxy) (r : Request) :
    ForwardOutcome :=
  match parse rp.GetProxyURL with
  | .error e => { req := r, errors := [e], served := false }
  | .ok url =>
    let r1 : Request := { r with URL := { r.URL with Host := url.Host } }
    let r2 : Request := { r1 with URL := { r1.URL with Scheme := url.Scheme } }
    let r3 : Request :=
      { r2 with Header :=
          headerSet r2.Header (gs "X-Forwarded-Host") (headerGet r2.Header (gs "Host")) }
    let r4 : Request := { r3 with Host := url.Host }
    { req := r4, errors := [], served := true }

/-- ioutil.ReadAll on the body stream: a destructive read returning the whole
content and draining the stream, the transport error for a failing stream, and
an empty successful read on an already drained stream. -/
def readAll : BodyState → Except GoStr GoStr × BodyState
  | .stream s => (.ok s, .consumed)
  | .consumed => (.ok [], .consumed)
  | .failing e => (.error e, .failing e)

/-- Outcome of decodeURLFromBody: the resolver state, the request (its body
possibly replaced by a fresh readable stream) and the returned error. -/
structure DecodeOutcome where
  rp : reverseProxy
  req : Request
  err : Option GoStr
deriving DecidableEq

/-- decodeURLFromBody: read the whole body (returning the read error on
failure), replace the body by a fresh readable stream over the read bytes,
then unmarshal the bytes into the reverseProxy struct — on success with the
proxyURL field present this overwrites the stored URL, with the field absent
it leaves the struct untouched, and on a decode error (encoding/json
validates syntax before writing any field) it also leaves it untouched. -/
def decodeURLFromBody (unmarshal : UnmarshalFn) (rp : reverseProxy) (r : Request) :
    DecodeOutcome :=
  match readAll r.Body with
  | (.error e, b) => { rp := rp, req := { r with Body := b }, err := some e }
  | (.ok body, _) =>
    let r1 : Request := { r with Body := BodyState.stream body }
    match unmarshal body with
    | .error e => { rp := rp, req := r1, err := some e }
    | .ok none => { rp := rp, req := r1, err := none }
    | .ok (some v) => { rp := { rp with URL := v }, req := r1, err := none }

/-- Observable outcome of one handler invocation: the final resolver state,
the final request, the error-collaborator invocations in order, how many times
serveReverseProxy was invoked, and whether the reverse-proxy primitive was
handed the request. -/
structure HandlerOutcome where
  proxy : reverseProxy
  req : Request
  errors : List GoStr
  forwardCalls : Nat
  served : Bool
deriving DecidableEq

/-- The configuration error message of the path-mode handler. -/
def pathHandlerErrMsg : GoStr :=
  gs "ProxyURL needs to be set for PathRequestProxyHandler"

/-- The configuration error message of the payload-mode handler. -/
def payloadHandlerErrMsg : GoStr :=
  gs "ProxyURL needs to be set in request body at proxyURL field"

/-- PathRequestProxyHandler: when the stored target is empty, report the
configuration error and return; otherwise trim the bound path from the
request path with strings.TrimPrefix and delegate to serveReverseProxy. -/
def OKProxy.PathRequestProxyHandler (p : OKProxy) (parse : ParseURL)
    (path : GoStr) (r : Request) : HandlerOutcome :=
  if p.proxy.GetProxyURL = [] then
    { proxy := p.proxy, req := r, errors := [pathHandlerErrMsg],
      forwardCalls := 0, served := false }
  else
    let r1 : Request := { r with URL := { r.URL with Path := dropPrefixOnce r.URL.Path path } }
    let fo := serveReverseProxy parse p.proxy r1
    { proxy := p.proxy, req := fo.req, errors := fo.errors,
      forwardCalls := 1, served := fo.served }

/-- PayloadRequestProxyHandler: decode the target from the JSON body (report
a decode error and return), then when the stored target is still empty report
the configuration error and return, otherwise delegate to serveReverseProxy. -/
def OKProxy.PayloadRequestProxyHandler (p : OKProxy) (parse : ParseURL)
    (unmarshal : UnmarshalFn) (r : Request) : HandlerOutcome :=
  let d := decodeURLFromBody unmarshal p.proxy r
  match d.err with
  | some e =>
    { proxy := d.rp, req := d.req, errors := [e], forwardCalls := 0, served := false }
  | none =>
    if d.rp.GetProxyURL = [] then
      { proxy := d.rp, req := d.req, errors := [payloadHandlerErrMsg],
        forwardCalls := 0, served := false }
    else
      let fo := serveReverseProxy parse d.rp d.req
      { proxy := d.rp, req := fo.req, errors := fo.errors,
        forwardCalls := 1, served := fo.served }

/-- An ASCII control byte (below 0x20, or 0x7f), the class of bytes that
net/url.Parse rejects before any other processing. -/
def isCTLChar (c : Char) : Bool :=
  c.toNat < 32 || c.toNat == 127

/-- A character admitted in the scheme of the modelled URL fragment. -/
def isSchemeChar (c : Char) : Bool :=
  c.isAlpha || c.isDigit || c == '+' || c == '-' || c == '.'

/-- A character admitted in the host of the modelled URL fragment. -/
def isHostChar (c : Char) : Bool :=
  c.isAlphanum || c == '.' || c == ':' || c == '-'

/-- Split a string at the first occurrence of the three characters of the
scheme separator, returning the parts before and after it. -/
def splitAtSchemeSep : GoStr → Option (GoStr × GoStr)
  | [] => none
  | c :: cs =>
    if (gs "://").isPrefixOf (c :: cs) then some ([], (c :: cs).drop 3)
    else
      match splitAtSchemeSep cs with
      | some (a, b) => some (c :: a, b)
      | none => none

/-- Model of the platform URL parser net/url.Parse, faithful on the fragment
of inputs at which this development evaluates it: any string containing an
ASCII control byte is rejected first, exactly as net/url does, and a plain
absolute URL of the shape scheme and separator and host — with a non-empty
alphanumeric scheme and a host built from alphanumerics, dots, colons and
hyphens, no path, query, fragment or userinfo — parses into that scheme and
host, again as net/url does. Inputs outside this fragment are reported as
such and are never evaluated in this development. -/
def goParseURL : ParseURL := fun s =>
  if s.any isCTLChar then
    .error (gs "net/url: invalid control character in URL")
  else
    match splitAtSchemeSep s with
    | some (scheme, host) =>
      if !scheme.isEmpty && scheme.all isSchemeChar
          && !host.isEmpty && host.all isHostChar then
        .ok { Scheme := scheme, Host := host }
      else
        .error (gs "input outside the modelled fragment of url parsing")
    | none => .error (gs "input outside the modelled fragment of url parsing")

/-- The opening curly brace character. -/
def lbrace : Char := Char.ofNat 123

/-- The closing curly brace character. -/
def rbrace : Char := Char.ofNat 125

/-- JSON insignificant whitespace. -/
def isJSONWS (c : Char) : Bool :=
  c == ' ' || c == '\t' || c == '\n' || c == '\r'

/-- Drop leading JSON whitespace. -/
def skipWS : GoStr → GoStr
  | [] => []
  | c :: cs => if isJSONWS c then skipWS cs else c :: cs

/-- Scan the body of a JSON string literal after its opening quote, up to the
closing quote; escape sequences are outside the modelled fragment. -/
def jsonStrBody : GoStr → Option (GoStr × GoStr)
  | [] => none
  | c :: cs =>
    if c == '"' then some ([], cs)
    else if c == '\\' then none
    else
      match jsonStrBody cs with
      | some (s, rest) => some (c :: s, rest)
      | none => none

/-- Scan a non-empty comma-separated list of JSON object members whose keys
and values are string literals; the fuel bounds the recursion depth. -/
def jsonMembers : Nat → GoStr → Option (List (GoStr × GoStr) × GoStr)
  | 0, _ => none
  | fuel + 1, cs =>
    match skipWS cs with
    | '"' :: cs1 =>
      match jsonStrBody cs1 with
      | some (k, cs2) =>
        match skipWS cs2 with
        | ':' :: cs3 =>
          match skipWS cs3 with
          | '"' :: cs4 =>
            match jsonStrBody cs4 with
            | some (v, cs5) =>
              match skipWS cs5 with
              | ',' :: cs6 =>
                match jsonMembers fuel cs6 with
                | some (ms, rest) => some ((k, v) :: ms, rest)
                | none => none
              | rest => some ([(k, v)], rest)
            | none => none
          | _ => none
        | _ => none
      | none => none
    | _ => none

/-- Parse a complete flat JSON object whose members have string keys and
string values, with nothing but whitespace after it. -/
def jsonFlatObject (s : GoStr) : Option (List (GoStr × GoStr)) :=
  match skipWS s with
  | c :: cs =>
    if c = lbrace then
      match skipWS cs with
      | c1 :: rest =>
        if c1 = rbrace then
          if (skipWS rest).isEmpty then some [] else none
        else
          match jsonMembers s.length cs with
          | some (ms, rest1) =>
            match skipWS rest1 with
            | c2 :: rest2 =>
              if c2 = rbrace then
                if (skipWS rest2).isEmpty then some ms else none
              else none
            | [] => none
          | none => none
      | [] => none
    else none
  | [] => none

/-- Model of the platform JSON decoder encoding/json.Unmarshal into the
reverseProxy struct (single field tagged proxyURL), faithful on the fragment
of inputs at which this development evaluates it: bodies that are flat JSON
objects whose keys and values are escape-free string literals, and
truncations of such bodies, which fail to decode. Unknown keys are ignored
and a later duplicate key wins, as in encoding/json; the error value stands
for the decode error encoding/json reports there. -/
def goUnmarshalProxyURL : UnmarshalFn := fun s =>
  match jsonFlatObject s with
  | none => .error (gs "unexpected end of JSON input")
  | some ms =>
    .ok ((ms.reverse.find? (fun m => m.1 == gs "proxyURL")).map (fun m => m.2))

/-- A request with the given path, header list, host and body, standing for
the concrete requests of the test suite. -/
def mkRequest (path : GoStr) (hdr : List (GoStr × GoStr)) (host : GoStr)
    (b : BodyState) : Request :=
  { URL := { Scheme := [], Host := [], Path := path },
    Header := hdr, Host := host, Body := b }

/-- The forwarder never changes the request path or body; frame lemma used by
the handler proofs. -/
theorem serveReverseProxy_frame (parse : ParseURL) (rp : reverseProxy) (r : Request) :
    (serveReverseProxy parse rp r).req.URL.Path = r.URL.Path
    ∧ (serveReverseProxy parse rp r).req.Body = r.Body := by
  unfold serveReverseProxy
  cases parse rp.GetProxyURL <;> simp [headerSet]

/-- Setting a header and reading it back under the same key yields the value
just set. -/
theorem headerGet_headerSet_self (h : List (GoStr × GoStr)) (k v : GoStr) :
    headerGet (headerSet h k v) k = v := by
  simp [headerGet, headerSet]

/-- C1: with a non-empty resolved target, the path-mode handler removes
exactly one leading occurrence of the bound path from the request path before
delegating to the forwarder; a request whose path does not start with the
bound path is handed to the forwarder unchanged, so its outcome — errors
included — is exactly that of forwarding the original request, and in
particular the trim step raises no error. -/
theorem pathHandler_trims_one_leading_occurrence
    (parse : ParseURL) (P : GoStr) (p : OKProxy) (r : Request)
    (hne : p.proxy.GetProxyURL ≠ []) :
    (∀ rest : GoStr, r.URL.Path = P ++ rest →
        (p.PathRequestProxyHandler parse P r).req.URL.Path = rest
        ∧ (p.PathRequestProxyHandler parse P r).forwardCalls = 1)
    ∧ (¬ P <+: r.URL.Path →
        (p.PathRequestProxyHandler parse P r).req.URL.Path = r.URL.Path
        ∧ (p.PathRequestProxyHandler parse P r).forwardCalls = 1
        ∧ (p.PathRequestProxyHandler parse P r).req
            = (serveReverseProxy parse p.proxy r).req
        ∧ (p.PathRequestProxyHandler parse P r).errors
            = (serveReverseProxy parse p.proxy r).errors) := by
  constructor
  · intro rest hrest
    have hdrop : dropPrefixOnce r.URL.Path P = rest := by
      rw [hrest]
      unfold dropPrefixOnce
      rw [if_pos (List.isPrefixOf_iff_prefix.mpr (List.prefix_append P rest)),
        List.drop_left]
    simp only [OKProxy.PathRequestProxyHandler, if_neg hne, hdrop]
    exact ⟨(serveReverseProxy_frame parse p.proxy _).1, trivial⟩
  · intro hnp
    have hdrop : dropPrefixOnce r.URL.Path P = r.URL.Path := by
      unfold dropPrefixOnce
      rw [if_neg (fun hh => hnp (List.isPrefixOf_iff_prefix.mp hh))]
    have hsame : ({ r with URL := { r.URL with Path := dropPrefixOnce r.URL.Path P } }
        : Request) = r := by
      rw [hdrop]
    simp only [OKProxy.PathRequestProxyHandler, if_neg hne, hsame]
    exact ⟨(serveReverseProxy_frame parse p.proxy r).1, trivial, trivial, trivial⟩

/-- C1 witness: prefix /forward on path /forward/api with target http://h:1
trims to /api and forwards, and a path /api/x not starting with /forward is
forwarded unchanged. -/
theorem pathHandler_trims_one_leading_occurrence_witness :
    ((New (gs "http://h:1")).PathRequestProxyHandler goParseURL (gs "/forward")
        (mkRequest (gs "/forward/api") [] (gs "h") BodyState.consumed)).req.URL.Path
      = gs "/api"
    ∧ ((New (gs "http://h:1")).PathRequestProxyHandler goParseURL (gs "/forward")
        (mkRequest (gs "/api/x") [] (gs "h") BodyState.consumed)).req.URL.Path
      = gs "/api/x" := by
  refine ⟨((pathHandler_trims_one_leading_occurrence goParseURL (gs "/forward")
      (New (gs "http://h:1"))
      (mkRequest (gs "/forward/api") [] (gs "h") BodyState.consumed)
      (by decide)).1 (gs "/api") (by decide)).1, ?_⟩
  exact ((pathHandler_trims_one_leading_occurrence goParseURL (gs "/forward")
      (New (gs "http://h:1"))
      (mkRequest (gs "/api/x") [] (gs "h") BodyState.consumed)
      (by decide)).2 (by decide)).1

/-- C2: when the stored target parses as a URL, the forwarder rewrites the
request so that the URL host and scheme equal the parsed target's host and
scheme, X-Forwarded-Host equals the value the inbound header map stores under
Host (the empty string when that entry is absent), and the request host field
equals the target's host. -/
theorem serveReverseProxy_rewrites_request
    (parse : ParseURL) (rp : reverseProxy) (r : Request) (u : TargetURL)
    (h : parse rp.GetProxyURL = .ok u) :
    (serveReverseProxy parse rp r).req.URL.Host = u.Host
    ∧ (serveReverseProxy parse rp r).req.URL.Scheme = u.Scheme
    ∧ headerGet (serveReverseProxy parse rp r).req.Header (gs "X-Forwarded-Host")
        = headerGet r.Header (gs "Host")
    ∧ (serveReverseProxy parse rp r).req.Host = u.Host := by
  unfold serveReverseProxy
  rw [h]
  exact ⟨rfl, rfl, headerGet_headerSet_self _ _ _, rfl⟩

/-- C2 witness at the spec's concrete example: target https://127.0.0.1:8080
and inbound Host header 127.0.0.1:8080. -/
theorem serveReverseProxy_rewrites_request_witness :
    (serveReverseProxy goParseURL ⟨gs "https://127.0.0.1:8080"⟩
        (mkRequest (gs "/") [(gs "Host", gs "127.0.0.1:8080")] (gs "example.com")
          BodyState.consumed)).req.URL.Host = gs "127.0.0.1:8080"
    ∧ (serveReverseProxy goParseURL ⟨gs "https://127.0.0.1:8080"⟩
        (mkRequest (gs "/") [(gs "Host", gs "127.0.0.1:8080")] (gs "example.com")
          BodyState.consumed)).req.URL.Scheme = gs "https"
    ∧ headerGet (serveReverseProxy goParseURL ⟨gs "https://127.0.0.1:8080"⟩
        (mkRequest (gs "/") [(gs "Host", gs "127.0.0.1:8080")] (gs "example.com")
          BodyState.consumed)).req.Header (gs "X-Forwarded-Host") = gs "127.0.0.1:8080"
    ∧ (serveReverseProxy goParseURL ⟨gs "https://127.0.0.1:8080"⟩
        (mkRequest (gs "/") [(gs "Host", gs "127.0.0.1:8080")] (gs "example.com")
          BodyState.consumed)).req.Host = gs "127.0.0.1:8080" := by
  have h := serveReverseProxy_rewrites_request goParseURL ⟨gs "https://127.0.0.1:8080"⟩
      (mkRequest (gs "/") [(gs "Host", gs "127.0.0.1:8080")] (gs "example.com")
        BodyState.consumed)
      { Scheme := gs "https", Host := gs "127.0.0.1:8080" } (by decide)
  exact ⟨h.1, h.2.1, by rw [h.2.2.1]; decide, h.2.2.2⟩

/-- C3: a payload-mode request whose body decodes to a non-empty proxyURL
value sets the resolver's stored target to that value, invokes the forwarder
exactly once, and leaves the request body a fresh readable stream
byte-identical to the original content. -/
theorem payloadHandler_valid_body
    (parse : ParseURL) (unmarshal : UnmarshalFn) (p : OKProxy) (r : Request)
    (b v : GoStr) (hb : r.Body = BodyState.stream b)
    (hu : unmarshal b = .ok (some v)) (hv : v ≠ []) :
    (p.PayloadRequestProxyHandler parse unmarshal r).proxy.GetProxyURL = v
    ∧ (p.PayloadRequestProxyHandler parse unmarshal r).forwardCalls = 1
    ∧ (p.PayloadRequestProxyHandler parse unmarshal r).req.Body
        = BodyState.stream b := by
  have hv' : (⟨v⟩ : reverseProxy).GetProxyURL ≠ [] := hv
  simp only [OKProxy.PayloadRequestProxyHandler, decodeURLFromBody, hb, readAll, hu,
    if_neg hv']
  refine ⟨rfl, trivial, ?_⟩
  exact (serveReverseProxy_frame parse _ _).2

/-- C3 witness: body with proxyURL http://h:1 on a resolver created empty. -/
theorem payloadHandler_valid_body_witness :
    ((New []).PayloadRequestProxyHandler goParseURL goUnmarshalProxyURL
        (mkRequest (gs "/") [] (gs "h")
          (BodyState.stream (gs "\x7b\"proxyURL\":\"http://h:1\"\x7d")))).proxy.GetProxyURL
      = gs "http://h:1"
    ∧ ((New []).PayloadRequestProxyHandler goParseURL goUnmarshalProxyURL
        (mkRequest (gs "/") [] (gs "h")
          (BodyState.stream (gs "\x7b\"proxyURL\":\"http://h:1\"\x7d")))).forwardCalls = 1
    ∧ ((New []).PayloadRequestProxyHandler goParseURL goUnmarshalProxyURL
        (mkRequest (gs "/") [] (gs "h")
          (BodyState.stream (gs "\x7b\"proxyURL\":\"http://h:1\"\x7d")))).req.Body
      = BodyState.stream (gs "\x7b\"proxyURL\":\"http://h:1\"\x7d") :=
  payloadHandler_valid_body goParseURL goUnmarshalProxyURL (New [])
    (mkRequest (gs "/") [] (gs "h")
      (BodyState.stream (gs "\x7b\"proxyURL\":\"http://h:1\"\x7d")))
    (gs "\x7b\"proxyURL\":\"http://h:1\"\x7d") (gs "http://h:1")
    rfl (by decide) (by decide)

/-- C4 counterexample: with the resolver pre-seeded to the non-empty target
http://x:1 and body the empty JSON object (proxyURL absent), the target does
not resolve to empty — json unmarshalling leaves an absent field untouched —
so the handler invokes the forwarder and reports no error, contrary to the
claim. -/
theorem payloadHandler_absent_field_counterexample :
    ((New (gs "http://x:1")).PayloadRequestProxyHandler goParseURL goUnmarshalProxyURL
        (mkRequest (gs "/") [] (gs "h") (BodyState.stream (gs "\x7b\x7d")))).forwardCalls
      = 1
    ∧ ((New (gs "http://x:1")).PayloadRequestProxyHandler goParseURL goUnmarshalProxyURL
        (mkRequest (gs "/") [] (gs "h") (BodyState.stream (gs "\x7b\x7d")))).errors
      = [] := by
  decide

/-- C4 (amended): a payload-mode request whose body is valid JSON with the
proxyURL field absent leaves the resolver's stored target unchanged; when the
stored target was empty before the request, the handler invokes the error
collaborator exactly once with the unconfigured-target configuration error —
not a malformed-payload error — and does not invoke the forwarder. -/
theorem payloadHandler_absent_field
    (parse : ParseURL) (unmarshal : UnmarshalFn) (p : OKProxy) (r : Request)
    (b : GoStr) (hb : r.Body = BodyState.stream b)
    (hu : unmarshal b = .ok none) :
    (p.PayloadRequestProxyHandler parse unmarshal r).proxy = p.proxy
    ∧ (p.proxy.GetProxyURL = [] →
        (p.PayloadRequestProxyHandler parse unmarshal r).errors = [payloadHandlerErrMsg]
        ∧ (p.PayloadRequestProxyHandler parse unmarshal r).forwardCalls = 0) := by
  simp only [OKProxy.PayloadRequestProxyHandler, decodeURLFromBody, hb, readAll, hu]
  constructor
  · by_cases hp : p.proxy.GetProxyURL = [] <;> simp [hp]
  · intro hp
    simp [hp]

/-- C4 witness for the amended claim: body the empty JSON object on a
resolver created empty. -/
theorem payloadHandler_absent_field_witness :
    ((New []).PayloadRequestProxyHandler goParseURL goUnmarshalProxyURL
        (mkRequest (gs "/") [] (gs "h") (BodyState.stream (gs "\x7b\x7d")))).proxy
      = (New []).proxy
    ∧ ((New []).PayloadRequestProxyHandler goParseURL goUnmarshalProxyURL
        (mkRequest (gs "/") [] (gs "h") (BodyState.stream (gs "\x7b\x7d")))).errors
      = [payloadHandlerErrMsg]
    ∧ ((New []).PayloadRequestProxyHandler goParseURL goUnmarshalProxyURL
        (mkRequest (gs "/") [] (gs "h") (BodyState.stream (gs "\x7b\x7d")))).forwardCalls
      = 0 := by
  have h := payloadHandler_absent_field goParseURL goUnmarshalProxyURL (New [])
      (mkRequest (gs "/") [] (gs "h") (BodyState.stream (gs "\x7b\x7d")))
      (gs "\x7b\x7d") rfl (by decide)
  exact ⟨h.1, (h.2 rfl).1, (h.2 rfl).2⟩

/-- C5: the path-mode handler invoked while the stored target is empty
reports the configuration error to the error collaborator exactly once, never
invokes the forwarder or the reverse-proxy primitive, and leaves the
resolver's stored target unchanged. -/
theorem pathHandler_empty_target
    (parse : ParseURL) (P : GoStr) (p : OKProxy) (r : Request)
    (h : p.proxy.GetProxyURL = []) :
    (p.PathRequestProxyHandler parse P r).errors = [pathHandlerErrMsg]
    ∧ (p.PathRequestProxyHandler parse P r).forwardCalls = 0
    ∧ (p.PathRequestProxyHandler parse P r).served = false
    ∧ (p.PathRequestProxyHandler parse P r).proxy = p.proxy := by
  simp [OKProxy.PathRequestProxyHandler, h]

/-- C5 witness: empty target, prefix /forward, path /forward/api. -/
theorem pathHandler_empty_target_witness :
    ((New []).PathRequestProxyHandler goParseURL (gs "/forward")
        (mkRequest (gs "/forward/api") [] (gs "h") BodyState.consumed)).errors
      = [pathHandlerErrMsg]
    ∧ ((New []).PathRequestProxyHandler goParseURL (gs "/forward")
        (mkRequest (gs "/forward/api") [] (gs "h") BodyState.consumed)).forwardCalls
      = 0 := by
  have h := pathHandler_empty_target goParseURL (gs "/forward") (New [])
      (mkRequest (gs "/forward/api") [] (gs "h") BodyState.consumed) rfl
  exact ⟨h.1, h.2.1⟩

/-- C6: a payload-mode request whose body fails JSON decoding invokes the
error collaborator exactly once, with the decode error itself, and never
invokes the forwarder or the reverse-proxy primitive. -/
theorem payloadHandler_invalid_json
    (parse : ParseURL) (unmarshal : UnmarshalFn) (p : OKProxy) (r : Request)
    (b e : GoStr) (hb : r.Body = BodyState.stream b)
    (hu : unmarshal b = .error e) :
    (p.PayloadRequestProxyHandler parse unmarshal r).errors = [e]
    ∧ (p.PayloadRequestProxyHandler parse unmarshal r).forwardCalls = 0
    ∧ (p.PayloadRequestProxyHandler parse unmarshal r).served = false := by
  simp [OKProxy.PayloadRequestProxyHandler, decodeURLFromBody, hb, readAll, hu]

/-- C6 witness: the truncated body missing its closing brace. -/
theorem payloadHandler_invalid_json_witness :
    ((New []).PayloadRequestProxyHandler goParseURL goUnmarshalProxyURL
        (mkRequest (gs "/") [] (gs "h")
          (BodyState.stream (gs "\x7b\"proxyURL\":\"http://h:1\"")))).errors
      = [gs "unexpected end of JSON input"]
    ∧ ((New []).PayloadRequestProxyHandler goParseURL goUnmarshalProxyURL
        (mkRequest (gs "/") [] (gs "h")
          (BodyState.stream (gs "\x7b\"proxyURL\":\"http://h:1\"")))).forwardCalls
      = 0 := by
  have h := payloadHandler_invalid_json goParseURL goUnmarshalProxyURL (New [])
      (mkRequest (gs "/") [] (gs "h")
        (BodyState.stream (gs "\x7b\"proxyURL\":\"http://h:1\"")))
      (gs "\x7b\"proxyURL\":\"http://h:1\"") (gs "unexpected end of JSON input")
      rfl (by decide)
  exact ⟨h.1, h.2.1⟩

/-- C7: when the stored target fails URL parsing, the forwarder invokes the
error collaborator exactly once with the parse error, does not delegate to
the reverse-proxy primitive, and leaves the request entirely unmutated. -/
theorem serveReverseProxy_parse_failure
    (parse : ParseURL) (rp : reverseProxy) (r : Request) (e : GoStr)
    (h : parse rp.GetProxyURL = .error e) :
    (serveReverseProxy parse rp r).errors = [e]
    ∧ (serveReverseProxy parse rp r).served = false
    ∧ (serveReverseProxy parse rp r).req = r := by
  unfold serveReverseProxy
  rw [h]
  exact ⟨rfl, rfl, rfl⟩

/-- C7 witness: the unparsable target of the test suite, rejected by net/url
for its embedded control character. -/
theorem serveReverseProxy_parse_failure_witness :
    (serveReverseProxy goParseURL ⟨gs "http\ns://6876826^@30"⟩
        (mkRequest (gs "/") [] (gs "example.com") BodyState.consumed)).errors
      = [gs "net/url: invalid control character in URL"]
    ∧ (serveReverseProxy goParseURL ⟨gs "http\ns://6876826^@30"⟩
        (mkRequest (gs "/") [] (gs "example.com") BodyState.consumed)).served = false
    ∧ (serveReverseProxy goParseURL ⟨gs "http\ns://6876826^@30"⟩
        (mkRequest (gs "/") [] (gs "example.com") BodyState.consumed)).req
      = mkRequest (gs "/") [] (gs "example.com") BodyState.consumed :=
  serveReverseProxy_parse_failure goParseURL ⟨gs "http\ns://6876826^@30"⟩
    (mkRequest (gs "/") [] (gs "example.com") BodyState.consumed)
    (gs "net/url: invalid control character in URL") (by decide)

/-- C8: SetProxyURL followed by GetProxyURL returns the value just set, the
mutation being the resolver's entire state change, and New pre-seeds the
resolver so that GetProxyURL immediately returns the initial target. -/
theorem resolver_set_get_contract :
    (∀ (rp : reverseProxy) (v : GoStr),
        (rp.SetProxyURL v).GetProxyURL = v ∧ rp.SetProxyURL v = ⟨v⟩)
    ∧ ∀ t : GoStr, (New t).proxy.GetProxyURL = t :=
  ⟨fun _ _ => ⟨rfl, rfl⟩, fun _ => rfl⟩

/-- C9: the path-mode handler invoked while the stored target is empty leaves
the request — in particular its URL path — unchanged: the emptiness check
precedes the trim step, so the prefix is not trimmed. -/
theorem pathHandler_empty_target_no_trim
    (parse : ParseURL) (P : GoStr) (p : OKProxy) (r : Request)
    (h : p.proxy.GetProxyURL = []) :
    (p.PathRequestProxyHandler parse P r).req.URL.Path = r.URL.Path
    ∧ (p.PathRequestProxyHandler parse P r).req = r := by
  simp [OKProxy.PathRequestProxyHandler, h]

/-- C9 witness: with an empty target the path /forward/api keeps its
/forward leading occurrence even though it matches the bound path. -/
theorem pathHandler_empty_target_no_trim_witness :
    ((New []).PathRequestProxyHandler goParseURL (gs "/forward")
        (mkRequest (gs "/forward/api") [] (gs "h") BodyState.consumed)).req.URL.Path
      = gs "/forward/api" :=
  (pathHandler_empty_target_no_trim goParseURL (gs "/forward") (New [])
    (mkRequest (gs "/forward/api") [] (gs "h") BodyState.consumed) rfl).1

/-- C10: the JSON-decode error path of the payload-mode handler is atomic for
observable state: the resolver's stored target is exactly its value before
the request, and the request body has already been restored to a readable
stream byte-identical to the original content. -/
theorem payloadHandler_invalid_json_atomic
    (parse : ParseURL) (unmarshal : UnmarshalFn) (p : OKProxy) (r : Request)
    (b e : GoStr) (hb : r.Body = BodyState.stream b)
    (hu : unmarshal b = .error e) :
    (p.PayloadRequestProxyHandler parse unmarshal r).proxy = p.proxy
    ∧ (p.PayloadRequestProxyHandler parse unmarshal r).req.Body
        = BodyState.stream b := by
  simp [OKProxy.PayloadRequestProxyHandler, decodeURLFromBody, hb, readAll, hu]

/-- C10 witness: the truncated body on a resolver pre-seeded to http://x:1
leaves the stored target http://x:1 and the body restored. -/
theorem payloadHandler_invalid_json_atomic_witness :
    ((New (gs "http://x:1")).PayloadRequestProxyHandler goParseURL goUnmarshalProxyURL
        (mkRequest (gs "/") [] (gs "h")
          (BodyState.stream (gs "\x7b\"proxyURL\":\"http://h:1\"")))).proxy
      = (New (gs "http://x:1")).proxy
    ∧ ((New (gs "http://x:1")).PayloadRequestProxyHandler goParseURL goUnmarshalProxyURL
        (mkRequest (gs "/") [] (gs "h")
          (BodyState.stream (gs "\x7b\"proxyURL\":\"http://h:1\"")))).req.Body
      = BodyState.stream (gs "\x7b\"proxyURL\":\"http://h:1\"") :=
  payloadHandler_invalid_json_atomic goParseURL goUnmarshalProxyURL
    (New (gs "http://x:1"))
    (mkRequest (gs "/") [] (gs "h")
      (BodyState.stream (gs "\x7b\"proxyURL\":\"http://h:1\"")))
    (gs "\x7b\"proxyURL\":\"http://h:1\"") (gs "unexpected end of JSON input")
    rfl (by decide)
